import Mathlib

/-!
Verification of the task-orchestration core of the repository:
the two worker task handlers (`handleStoryToScriptTask`,
`handleScriptToStoryboardTask`), their voice-line persistence
transaction, retry loop, model resolution, progress math and
cancellation checkpoints, shallowly embedded in Lean.

JS strings are modelled by `String`, JSON numbers (always finite after
`JSON.parse`) by `ℚ`, fallible code by `Except`, and the database
voice-line table by a list of rows; the Prisma `$transaction` contract
(all-or-nothing) is modelled by returning the untouched table on error.
-/

/-- A JSON value as produced by `JSON.parse`: numbers are finite, so a
rational suffices; objects are ordered field lists. -/
inductive Json where
  | null : Json
  | bool (b : Bool) : Json
  | num (q : ℚ) : Json
  | str (s : String) : Json
  | arr (items : List Json) : Json
  | obj (fields : List (String × Json)) : Json

/-- A parsed JSON object, the `JsonRecord` type of the helper module. -/
abbrev JsonRecord := List (String × Json)

/-- JS `s.trim()`: strips whitespace from both ends of the string
(whitespace per `Char.isWhitespace`). -/
def jsTrim (s : String) : String :=
  String.mk (((s.data.dropWhile Char.isWhitespace).reverse.dropWhile Char.isWhitespace).reverse)

/-- Property access `record.key` on a JS object: the first binding wins
(`JSON.parse` keeps one binding per key); a missing key is `undefined`,
modelled as `none`. -/
def jsonGet (r : JsonRecord) (key : String) : Option Json :=
  (r.find? (fun p => p.1 = key)).map (fun p => p.2)

/-- Modelled from the spec: `asJsonRecord` of the script-to-storyboard
helper module is not under `src/`; per §9 every dynamic payload field
access goes through an explicit type/shape check, so this returns the
field list when the value is a plain JSON object and `none` for
`undefined`, `null`, or any non-object value. -/
def asJsonRecord : Option Json → Option JsonRecord
  | some (Json.obj fields) => some fields
  | _ => none

/-- Modelled from the spec: `toPositiveInt` of the script-to-storyboard
helper module is not under `src/`; per §9 it is an explicit shape check
parsing a dynamic JSON value as a strictly positive integer, `none`
otherwise. -/
def toPositiveInt : Option Json → Option Int
  | some (Json.num q) => if q.den = 1 ∧ 0 < q.num then some q.num else none
  | _ => none

/-- A persisted storyboard panel as returned by the storyboard
persistence step (id freshly created in this run). -/
structure PersistedPanel where
  id : String
  panelIndex : Int
deriving DecidableEq, Repr

/-- A persisted storyboard with its freshly created panels. -/
structure PersistedStoryboard where
  storyboardId : String
  panels : List PersistedPanel
deriving DecidableEq, Repr

/-- `Map.set`: the most recent binding wins on lookup (modelled by
prepending, with lookup scanning from the front). -/
def mapSet (m : List (String × String)) (k v : String) : List (String × String) :=
  (k, v) :: m

/-- `Map.get`: first (most recently set) binding for the key. -/
def mapGet (m : List (String × String)) (k : String) : Option String :=
  (m.find? (fun p => p.1 = k)).map (fun p => p.2)

/-- The `panelIdByStoryboardPanel` lookup map built by
`handleScriptToStoryboardTask` (part_004 lines 342-347): composite key
`storyboardId:panelIndex` over the panels persisted in this same run. -/
def buildPanelIdMap (storyboards : List PersistedStoryboard) : List (String × String) :=
  storyboards.foldl
    (fun acc sb =>
      sb.panels.foldl
        (fun acc2 p => mapSet acc2 (sb.storyboardId ++ ":" ++ toString p.panelIndex) p.id)
        acc)
    []

/-- A persisted voice-line row (`novelPromotionVoiceLine.create` data,
part_004 lines 392-404). -/
structure VoiceLine where
  episodeId : String
  lineIndex : Int
  speaker : String
  content : String
  emotionStrength : ℚ
  matchedPanelId : Option String
  matchedStoryboardId : Option String
  matchedPanelIndex : Option Int
deriving DecidableEq, Repr

/-- The matched-panel resolution of one voice-line row (part_004 lines
354-371): a non-null `matchedPanel` must carry a non-empty trimmed
`storyboardId` and a positive-int `panelIndex`, and the composite key
must resolve in the just-built panel map; returns
`(matchedPanelId, matchedStoryboardId, matchedPanelIndex)`. -/
def resolveMatchedPanel (panelMap : List (String × String)) (i : Nat) (row : JsonRecord) :
    Except String (Option String × Option String × Option Int) :=
  let matchedPanel := asJsonRecord (jsonGet row "matchedPanel")
  let matchedStoryboardId : Option String :=
    match matchedPanel with
    | some mp =>
      match jsonGet mp "storyboardId" with
      | some (Json.str s) => some (jsTrim s)
      | _ => none
    | none => none
  let matchedPanelIndex : Option Int :=
    match matchedPanel with
    | some mp => toPositiveInt (jsonGet mp "panelIndex")
    | none => none
  match matchedPanel with
  | none => Except.ok (none, matchedStoryboardId, matchedPanelIndex)
  | some _ =>
    match matchedStoryboardId, matchedPanelIndex with
    | some sid, some idx =>
      if sid = "" then
        Except.error ("voice line " ++ toString (i + 1) ++ " has invalid matchedPanel reference")
      else
        let panelKey := sid ++ ":" ++ toString idx
        match mapGet panelMap panelKey with
        | none =>
          Except.error ("voice line " ++ toString (i + 1) ++ " references non-existent panel " ++ panelKey)
        | some pid => Except.ok (some pid, matchedStoryboardId, matchedPanelIndex)
    | _, _ =>
      Except.error ("voice line " ++ toString (i + 1) ++ " has invalid matchedPanel reference")

/-- Validation and construction of one voice-line row inside the
transaction (part_004 lines 352-405): matched-panel resolution first,
then `emotionStrength` (must be a finite number, clamped to
`[0.1, 1]`), `lineIndex` (must be a finite number with floor ≥ 1),
`speaker` and `content` (must be non-empty strings after trimming). -/
def processVoiceRow (panelMap : List (String × String)) (episodeId : String) (i : Nat)
    (row : JsonRecord) : Except String VoiceLine :=
  match resolveMatchedPanel panelMap i row with
  | Except.error e => Except.error e
  | Except.ok (matchedPanelId, matchedStoryboardId, matchedPanelIndex) =>
  match jsonGet row "emotionStrength" with
  | some (Json.num qe) =>
    let emotionStrength : ℚ := min 1 (max (1 / 10) qe)
    match jsonGet row "lineIndex" with
    | some (Json.num ql) =>
      let lineIndex : Int := Int.floor ql
      if lineIndex ≤ 0 then
        Except.error ("voice line " ++ toString (i + 1) ++ " has invalid lineIndex")
      else
        match jsonGet row "speaker" with
        | some (Json.str speaker) =>
          if jsTrim speaker = "" then
            Except.error ("voice line " ++ toString (i + 1) ++ " is missing valid speaker")
          else
            match jsonGet row "content" with
            | some (Json.str content) =>
              if jsTrim content = "" then
                Except.error ("voice line " ++ toString (i + 1) ++ " is missing valid content")
              else
                Except.ok
                  { episodeId := episodeId
                    lineIndex := lineIndex
                    speaker := jsTrim speaker
                    content := content
                    emotionStrength := emotionStrength
                    matchedPanelId := matchedPanelId
                    matchedStoryboardId :=
                      if matchedPanelId.isSome then matchedStoryboardId else none
                    matchedPanelIndex := matchedPanelIndex }
            | _ => Except.error ("voice line " ++ toString (i + 1) ++ " is missing valid content")
        | _ => Except.error ("voice line " ++ toString (i + 1) ++ " is missing valid speaker")
    | _ => Except.error ("voice line " ++ toString (i + 1) ++ " is missing valid lineIndex")
  | _ => Except.error ("voice line " ++ toString (i + 1) ++ " is missing valid emotionStrength")

/-- The create loop of the voice-line transaction (part_004 lines
352-406), from row index `i` on: the first invalid row aborts the whole
computation. -/
def persistVoiceLinesAux (panelMap : List (String × String)) (episodeId : String) :
    Nat → List JsonRecord → Except String (List VoiceLine)
  | _, [] => Except.ok []
  | i, row :: rest =>
    match processVoiceRow panelMap episodeId i row with
    | Except.error e => Except.error e
    | Except.ok v =>
      match persistVoiceLinesAux panelMap episodeId (i + 1) rest with
      | Except.error e => Except.error e
      | Except.ok vs => Except.ok (v :: vs)

/-- All voice lines created by the transaction body, or the error that
aborts it. -/
def persistVoiceLines (panelMap : List (String × String)) (episodeId : String)
    (rows : List JsonRecord) : Except String (List VoiceLine) :=
  persistVoiceLinesAux panelMap episodeId 0 rows

/-- The `timeout` option of the voice-line `prisma.$transaction`
(part_004 line 408). -/
def voiceTransactionTimeoutMs : Nat := 15000

/-- The voice-line persistence transaction (part_004 lines 349-408)
acting on the voice-line table: `deleteMany({episodeId})` then the
create loop, all-or-nothing — on any error the table is left exactly as
it was (Prisma `$transaction` rollback). Returns the new table and the
created rows or the aborting error. -/
def applyVoiceLineTransaction (table : List VoiceLine) (episodeId : String)
    (panelMap : List (String × String)) (rows : List JsonRecord) :
    List VoiceLine × Except String (List VoiceLine) :=
  match persistVoiceLines panelMap episodeId rows with
  | Except.ok created =>
    ((table.filter (fun v => v.episodeId ≠ episodeId)) ++ created, Except.ok created)
  | Except.error e => (table, Except.error e)

/-- Whether an `Except` computation failed. -/
def isErr {ε α : Type} : Except ε α → Bool
  | Except.error _ => true
  | Except.ok _ => false

/-- A voice-line row carrying a non-null `matchedPanel` whose
`storyboardId` (a string with non-empty trim) and `panelIndex` (a
positive integer) are well-formed but whose composite key
`storyboardId:panelIndex` does not resolve in the panel lookup map. -/
def hasUnresolvedPanelRef (panelMap : List (String × String)) (row : JsonRecord) : Bool :=
  match asJsonRecord (jsonGet row "matchedPanel") with
  | none => false
  | some mp =>
    match jsonGet mp "storyboardId", toPositiveInt (jsonGet mp "panelIndex") with
    | some (Json.str s), some idx =>
      jsTrim s ≠ "" && (mapGet panelMap (jsTrim s ++ ":" ++ toString idx)).isNone
    | _, _ => false

/-- A voice-line row with a malformed generated field in the sense of
the validation block (part_004 lines 373-390): `emotionStrength`
missing or non-numeric, `lineIndex` missing, non-numeric or with floor
below 1, or `speaker`/`content` missing, non-string or empty after
trimming. -/
def rowFieldDefect (row : JsonRecord) : Bool :=
  (match jsonGet row "emotionStrength" with
   | some (Json.num _) => false
   | _ => true) ||
  (match jsonGet row "lineIndex" with
   | some (Json.num q) => decide (Int.floor q ≤ 0)
   | _ => true) ||
  (match jsonGet row "speaker" with
   | some (Json.str s) => decide (jsTrim s = "")
   | _ => true) ||
  (match jsonGet row "content" with
   | some (Json.str s) => decide (jsTrim s = "")
   | _ => true)

/-- Step metadata handed to `runStep` (the `StepMeta` type of the
orchestrator modules). -/
structure StepMeta where
  stepId : String
  stepTitle : String
  stepIndex : Nat
  stepTotal : Nat
  stepAttempt : Option Nat := none
deriving DecidableEq, Repr

/-- The `voiceStepMeta` of `handleScriptToStoryboardTask` (part_004
lines 312-317): the voice step sits after all orchestrator steps, so
both its index and total equal the orchestration's total step count. -/
def voiceStepMeta (totalStepCount : Nat) : StepMeta :=
  { stepId := "voice_analyze"
    stepTitle := "progress.streamStep.voiceAnalyze"
    stepIndex := totalStepCount
    stepTotal := totalStepCount }

/-- The step metadata used for voice-analysis attempt `a` (part_004
lines 319-325): attempt 1 uses `voiceStepMeta` unchanged; later
attempts override only `stepId` with the attempt-numbered id. -/
def voiceAttemptMeta (totalStepCount : Nat) (a : Nat) : StepMeta :=
  if a = 1 then voiceStepMeta totalStepCount
  else
    { voiceStepMeta totalStepCount with
        stepId := "voice_analyze_r" ++ toString a
        stepTitle := (voiceStepMeta totalStepCount).stepTitle }

/-- Outcome of one voice-analysis attempt (`runStep` on the voice
prompt followed by `parseVoiceLinesJson`): parsed rows, a
`TaskTerminatedError`, or any other error. -/
inductive AttemptOutcome where
  | ok (rows : List JsonRecord) : AttemptOutcome
  | terminated : AttemptOutcome
  | failed (msg : String) : AttemptOutcome

/-- How the voice-analysis retry loop can fail. -/
inductive VoiceFailure where
  | terminated : VoiceFailure
  | failedWith (msg : String) : VoiceFailure
  | nullError : VoiceFailure
deriving DecidableEq, Repr

/-- The voice-analysis retry loop of `handleScriptToStoryboardTask`
(part_004 lines 318-339), over the remaining attempt numbers with the
last recorded non-cancellation error: a `TaskTerminatedError` is
re-thrown immediately; any other error is recorded and the next attempt
(if any remains) runs; after the loop the last recorded error is thrown
(`VoiceFailure.nullError` models the unreachable `voiceLastError!` on a
null value). -/
def voiceLoop (attempt : Nat → AttemptOutcome) :
    List Nat → Option String → Except VoiceFailure (List JsonRecord)
  | [], some e => Except.error (VoiceFailure.failedWith e)
  | [], none => Except.error VoiceFailure.nullError
  | a :: rest, _lastError =>
    match attempt a with
    | AttemptOutcome.ok rows => Except.ok rows
    | AttemptOutcome.terminated => Except.error VoiceFailure.terminated
    | AttemptOutcome.failed e => voiceLoop attempt rest (some e)

/-- The whole voice-analysis retry phase: the loop visits attempt
numbers 1 and 2 in order (`voiceAttempt <= 2`), entered with no
recorded error. -/
def runVoiceAttempts (attempt : Nat → AttemptOutcome) : Except VoiceFailure (List JsonRecord) :=
  voiceLoop attempt [1, 2] none

/-- The per-step progress computed inside both `runStep` closures
(story-to-script line 133, part_004 line 177):
`15 + Math.min(55, Math.floor((stepIndex / Math.max(1, stepTotal)) * 55))`. -/
def stepProgress (stepIndex stepTotal : Nat) : Nat :=
  15 + min 55 (Nat.floor (((stepIndex : ℚ) / ((max 1 stepTotal : Nat) : ℚ)) * 55))

/-- Fixed stage percentage reported before the step band. -/
def prepareProgressPercent : Nat := 10

/-- Fixed stage percentage reported when entering persistence. -/
def persistProgressPercent : Nat := 80

/-- Fixed stage percentage reported after persistence. -/
def persistDoneProgressPercent : Nat := 96

/-- One per-clip screenplay outcome of the story-to-script
orchestrator: failures are captured as data, never thrown per clip. -/
structure ScreenplayResult where
  clipId : String
  success : Bool
  screenplay : Option String := none
  error : Option String := none
deriving DecidableEq, Repr

/-- The aggregated summary of a story-to-script orchestration. -/
structure StoryToScriptSummary where
  clipCount : Nat
  screenplaySuccessCount : Nat
  screenplayFailedCount : Nat
  totalStepCount : Nat
deriving DecidableEq, Repr

/-- The part of the story-to-script orchestrator result that the
handler's post-orchestration phase inspects. -/
structure StoryToScriptResult where
  screenplayResults : List ScreenplayResult
  summary : StoryToScriptSummary
deriving DecidableEq, Repr

/-- JS `value || fallback` on an optional string: `null`, `undefined`
and the empty string are all falsy. -/
def jsStringOrDefault (value : Option String) (fallback : String) : String :=
  match value with
  | some s => if s = "" then fallback else s
  | none => fallback

/-- The `STORY_TO_SCRIPT_PARTIAL_FAILED` message built by
`handleStoryToScriptTask` (story-to-script.ts lines 219-227): failed
and total counts plus a preview joining at most the first 3 failing
items as `clipId:reason`. -/
def partialFailedMessage (r : StoryToScriptResult) : String :=
  let failed := r.screenplayResults.filter (fun item => !item.success)
  let preview :=
    String.intercalate " | "
      ((failed.take 3).map (fun item => item.clipId ++ ":" ++ jsStringOrDefault item.error "unknown error"))
  "STORY_TO_SCRIPT_PARTIAL_FAILED: " ++ toString r.summary.screenplayFailedCount ++ "/"
    ++ toString r.summary.clipCount ++ " screenplay steps failed. " ++ preview

/-- The `inputModel` computed by both handlers (story-to-script.ts
line 39, part_004 line 88): `payload.model` trimmed when it is a
string, else the empty string. -/
def inputModelOf (payloadModel : Option Json) : String :=
  match payloadModel with
  | some (Json.str s) => jsTrim s
  | _ => ""

/-- The analysis-model resolution shared verbatim by both handlers
(story-to-script.ts lines 89-93; part_004 lines 140-144):
`inputModel || getProjectModelConfig(projectId, userId).analysisModel || ''`;
an empty result is the explicit configuration error. -/
def resolveAnalysisModel (payloadModel : Option Json)
    (configAnalysisModel : String → String → Option String)
    (projectId userId : String) : Except String String :=
  let inputModel : String := inputModelOf payloadModel
  let model : String :=
    if inputModel ≠ "" then inputModel
    else
      match configAnalysisModel projectId userId with
      | some s => if s ≠ "" then s else ""
      | none => ""
  if model = "" then Except.error "analysisModel is not configured"
  else Except.ok model

/-- JS `s.slice(0, n)`, modelled at character granularity. -/
def stringSlice (s : String) (n : Nat) : String :=
  String.mk (s.data.take n)

/-- The `maxLength` content cap of `handleStoryToScriptTask`
(story-to-script.ts line 108). -/
def storyContentMaxLength : Nat := 30000

/-- The `contentRaw` of `handleStoryToScriptTask` (story-to-script.ts
line 38): `payload.content` when it is a string, else the empty
string. -/
def contentRawOf (payloadContent : Option Json) : String :=
  match payloadContent with
  | some (Json.str s) => s
  | _ => ""

/-- The merged analyzed content (story-to-script.ts line 104): trimmed
payload content, falling back to the episode's `novelText` (or `''`)
when empty. -/
def mergedContentOf (payloadContent : Option Json) (novelText : Option String) : String :=
  if jsTrim (contentRawOf payloadContent) ≠ "" then jsTrim (contentRawOf payloadContent)
  else
    match novelText with
    | some t => t
    | none => ""

/-- The analyzed-content resolution of `handleStoryToScriptTask`
(story-to-script.ts lines 38, 104-109): an all-whitespace merge is an
explicit error; the result is capped at the first
`storyContentMaxLength` characters. -/
def resolveStoryContent (payloadContent : Option Json) (novelText : Option String) :
    Except String String :=
  let mergedContent : String := mergedContentOf payloadContent novelText
  if jsTrim mergedContent = "" then Except.error "content is required"
  else
    Except.ok
      (if mergedContent.length > storyContentMaxLength then
        stringSlice mergedContent storyContentMaxLength
      else mergedContent)

/-- Observable actions of a handler, in program order: the liveness
gate, a progress report, an audit log, the billable LLM completion
call, and database reads/writes. -/
inductive TaskEvent where
  | assertActive (label : String) : TaskEvent
  | progressReport (percent : Nat) : TaskEvent
  | auditLog (tag : String) : TaskEvent
  | llmCall (stepId : String) : TaskEvent
  | dbRead (target : String) : TaskEvent
  | dbWrite (target : String) : TaskEvent
deriving DecidableEq, Repr

/-- Whether an event is a database write. -/
def TaskEvent.isDbWrite : TaskEvent → Bool
  | TaskEvent.dbWrite _ => true
  | _ => false

/-- Whether an event is an LLM completion call. -/
def TaskEvent.isLlmCall : TaskEvent → Bool
  | TaskEvent.llmCall _ => true
  | _ => false

/-- The event trace of one `runStep` closure invocation (story-to-script.ts
lines 125-190, part_004 lines 169-233), with the handler's stage tag
(`story_to_script` or `script_to_storyboard`): `assertTaskActive` is the
first awaited action; when the job is no longer active it throws there,
so neither the progress report nor the completion call happens;
otherwise progress, the prompt audit log, the LLM call and the output
audit log follow. -/
def runStepEvents (stageTag : String) (jobActive : Bool) (meta : StepMeta) : List TaskEvent :=
  if jobActive = false then
    [TaskEvent.assertActive (stageTag ++ "_step:" ++ meta.stepId)]
  else
    [TaskEvent.assertActive (stageTag ++ "_step:" ++ meta.stepId),
     TaskEvent.progressReport (stepProgress meta.stepIndex meta.stepTotal),
     TaskEvent.auditLog "prompt",
     TaskEvent.llmCall meta.stepId,
     TaskEvent.auditLog "output"]

/-- How a handler phase can fail: the distinguished cancellation signal
or an ordinary error message. -/
inductive HandlerFailure where
  | terminated : HandlerFailure
  | failure (msg : String) : HandlerFailure
deriving DecidableEq, Repr

/-- The `NOT_FOUND` error message of the episode re-verification in
`handleStoryToScriptTask` (story-to-script.ts line 245). -/
def notFoundEpisodeMessage (episodeId : String) : String :=
  "NOT_FOUND: Episode " ++ episodeId ++ " was deleted while the task was running"

/-- The post-orchestration phase of `handleStoryToScriptTask`
(story-to-script.ts lines 219-289) as trace plus outcome: the
partial-failure gate throws before any further action; then progress 80
and the `assertTaskActive` persistence checkpoint; then the episode
re-verification, failing `NOT_FOUND`-prefixed when the episode vanished
mid-run; only then the persistence writes (the persistence helper
modules are not under src/ and are modelled as opaque write events) and
the 96% report. -/
def storyToScriptFinishPhase (jobActive episodeStillExists : Bool) (episodeId : String)
    (r : StoryToScriptResult) : List TaskEvent × Except HandlerFailure Unit :=
  if r.summary.screenplayFailedCount > 0 then
    ([], Except.error (HandlerFailure.failure (partialFailedMessage r)))
  else
    let pre := [TaskEvent.progressReport 80, TaskEvent.assertActive "story_to_script_persist"]
    if jobActive = false then (pre, Except.error HandlerFailure.terminated)
    else
      let pre2 := pre ++ [TaskEvent.dbRead "novelPromotionEpisode"]
      if episodeStillExists = false then
        (pre2, Except.error (HandlerFailure.failure (notFoundEpisodeMessage episodeId)))
      else
        (pre2 ++
          [TaskEvent.dbWrite "characters", TaskEvent.dbWrite "locations",
           TaskEvent.dbWrite "clips", TaskEvent.dbWrite "screenplay",
           TaskEvent.progressReport 96],
         Except.ok ())

/-- Modelled from the spec: `persistStoryboardsAndPanels` lives in the
script-to-storyboard helper module, which is not under src/; per
§4.3.6 and §7 the persistence step re-verifies that the target episode
still exists and fails with an explicit `NOT_FOUND`-prefixed error
before writing into a vanished parent, and otherwise writes and
returns the persisted storyboards of this run. -/
def persistStoryboardsAndPanels (episodeStillExists : Bool) (episodeId : String)
    (storyboards : List PersistedStoryboard) : Except String (List PersistedStoryboard) :=
  if episodeStillExists = false then
    Except.error ("NOT_FOUND: Episode " ++ episodeId ++ " does not exist")
  else Except.ok storyboards

/-- The persistence phase of `handleScriptToStoryboardTask` (part_004
lines 281-414) as an event trace: progress 80, the `assertTaskActive`
persistence checkpoint (aborting everything after it when the job is
inactive), the storyboard/panel writes (skipped when the modelled
episode re-verification fails), the voice-analysis step events, the
`assertTaskActive` voice-persistence checkpoint, and finally the
voice-line transaction write and the 96% report. -/
def scriptToStoryboardPersistEvents (activeAtPersist episodeStillExists : Bool)
    (voiceEvents : List TaskEvent) (activeAtVoicePersist : Bool) : List TaskEvent :=
  [TaskEvent.progressReport 80, TaskEvent.assertActive "script_to_storyboard_persist"] ++
    (if activeAtPersist = false then []
     else if episodeStillExists = false then []
     else
       [TaskEvent.dbWrite "storyboards_and_panels"] ++ voiceEvents ++
         [TaskEvent.assertActive "script_to_storyboard_voice_persist"] ++
           (if activeAtVoicePersist = false then []
            else [TaskEvent.dbWrite "voice_lines", TaskEvent.progressReport 96]))

/-! Helper lemmas about the voice-line persistence pipeline. -/

theorem resolveMatchedPanel_isErr_of_unresolved (panelMap : List (String × String)) (i : Nat)
    (row : JsonRecord) (h : hasUnresolvedPanelRef panelMap row = true) :
    isErr (resolveMatchedPanel panelMap i row) = true := by
  unfold hasUnresolvedPanelRef at h
  unfold resolveMatchedPanel
  cases hmp : asJsonRecord (jsonGet row "matchedPanel") with
  | none => simp only [hmp] at h; cases h
  | some mp =>
    simp only [hmp] at h ⊢
    cases hsid : jsonGet mp "storyboardId" with
    | none => simp only [hsid] at h; cases h
    | some v =>
      cases v with
      | str s =>
        simp only [hsid] at h ⊢
        cases hidx : toPositiveInt (jsonGet mp "panelIndex") with
        | none => simp only [hidx] at h; cases h
        | some idx =>
          simp only [hidx] at h ⊢
          simp only [Bool.and_eq_true, ne_eq, decide_eq_true_eq,
            Option.isNone_iff_eq_none] at h
          obtain ⟨hne, hnone⟩ := h
          simp only [if_neg hne, hnone, isErr]
      | null => simp only [hsid] at h; cases h
      | bool b => simp only [hsid] at h; cases h
      | num q => simp only [hsid] at h; cases h
      | arr xs => simp only [hsid] at h; cases h
      | obj fs => simp only [hsid] at h; cases h

theorem processVoiceRow_isErr_of_unresolved (panelMap : List (String × String))
    (episodeId : String) (i : Nat) (row : JsonRecord)
    (h : hasUnresolvedPanelRef panelMap row = true) :
    isErr (processVoiceRow panelMap episodeId i row) = true := by
  have h2 := resolveMatchedPanel_isErr_of_unresolved panelMap i row h
  unfold processVoiceRow
  cases hres : resolveMatchedPanel panelMap i row with
  | error e => simp only [isErr]
  | ok trip => rw [hres] at h2; simp [isErr] at h2

theorem processVoiceRow_isErr_of_defect (panelMap : List (String × String))
    (episodeId : String) (i : Nat) (row : JsonRecord)
    (h : rowFieldDefect row = true) :
    isErr (processVoiceRow panelMap episodeId i row) = true := by
  unfold rowFieldDefect at h
  unfold processVoiceRow
  cases hres : resolveMatchedPanel panelMap i row with
  | error e => simp only [isErr]
  | ok trip =>
    obtain ⟨mpid, msid, midx⟩ := trip
    cases hemo : jsonGet row "emotionStrength" with
    | none => simp [isErr]
    | some v =>
      cases v with
      | num qe =>
        simp only [hemo, Bool.false_or] at h
        cases hline : jsonGet row "lineIndex" with
        | none => simp [isErr]
        | some w =>
          cases w with
          | num ql =>
            simp only [hline] at h
            by_cases hfl : Int.floor ql ≤ 0
            · simp [hfl, isErr]
            · rw [decide_eq_false hfl, Bool.false_or] at h
              cases hspk : jsonGet row "speaker" with
              | none => simp [hfl, isErr]
              | some u =>
                cases u with
                | str sp =>
                  simp only [hspk] at h
                  by_cases hsp : jsTrim sp = ""
                  · simp [hfl, hsp, isErr]
                  · rw [decide_eq_false hsp, Bool.false_or] at h
                    cases hcon : jsonGet row "content" with
                    | none => simp [hfl, hsp, isErr]
                    | some t =>
                      cases t with
                      | str c =>
                        simp only [hcon, decide_eq_true_eq] at h
                        simp [hfl, hsp, h, isErr]
                      | null => simp [hfl, hsp, isErr]
                      | bool b => simp [hfl, hsp, isErr]
                      | num q2 => simp [hfl, hsp, isErr]
                      | arr xs => simp [hfl, hsp, isErr]
                      | obj fs => simp [hfl, hsp, isErr]
                | null => simp [hfl, isErr]
                | bool b => simp [hfl, isErr]
                | num q2 => simp [hfl, isErr]
                | arr xs => simp [hfl, isErr]
                | obj fs => simp [hfl, isErr]
          | null => simp [isErr]
          | bool b => simp [isErr]
          | str s2 => simp [isErr]
          | arr xs => simp [isErr]
          | obj fs => simp [isErr]
      | null => simp [isErr]
      | bool b => simp [isErr]
      | str s2 => simp [isErr]
      | arr xs => simp [isErr]
      | obj fs => simp [isErr]

theorem processVoiceRow_ok_episodeId (panelMap : List (String × String)) (episodeId : String)
    (i : Nat) (row : JsonRecord) (v : VoiceLine)
    (h : processVoiceRow panelMap episodeId i row = Except.ok v) :
    v.episodeId = episodeId := by
  unfold processVoiceRow at h
  cases hres : resolveMatchedPanel panelMap i row with
  | error e => rw [hres] at h; cases h
  | ok trip =>
    obtain ⟨mpid, msid, midx⟩ := trip
    rw [hres] at h
    cases hemo : jsonGet row "emotionStrength" with
    | none => simp only [hemo] at h; cases h
    | some v1 =>
      cases v1 with
      | num qe =>
        simp only [hemo] at h
        cases hline : jsonGet row "lineIndex" with
        | none => simp only [hline] at h; cases h
        | some v2 =>
          cases v2 with
          | num ql =>
            simp only [hline] at h
            by_cases hfl : Int.floor ql ≤ 0
            · rw [if_pos hfl] at h; cases h
            · rw [if_neg hfl] at h
              cases hspk : jsonGet row "speaker" with
              | none => simp only [hspk] at h; cases h
              | some v3 =>
                cases v3 with
                | str sp =>
                  simp only [hspk] at h
                  by_cases hsp : jsTrim sp = ""
                  · rw [if_pos hsp] at h; cases h
                  · rw [if_neg hsp] at h
                    cases hcon : jsonGet row "content" with
                    | none => simp only [hcon] at h; cases h
                    | some v4 =>
                      cases v4 with
                      | str c =>
                        simp only [hcon] at h
                        by_cases hc : jsTrim c = ""
                        · rw [if_pos hc] at h; cases h
                        · rw [if_neg hc] at h
                          cases h
                          rfl
                      | null => simp only [hcon] at h; cases h
                      | bool b => simp only [hcon] at h; cases h
                      | num q4 => simp only [hcon] at h; cases h
                      | arr xs => simp only [hcon] at h; cases h
                      | obj fs => simp only [hcon] at h; cases h
                | null => simp only [hspk] at h; cases h
                | bool b => simp only [hspk] at h; cases h
                | num q3 => simp only [hspk] at h; cases h
                | arr xs => simp only [hspk] at h; cases h
                | obj fs => simp only [hspk] at h; cases h
          | null => simp only [hline] at h; cases h
          | bool b => simp only [hline] at h; cases h
          | str s2 => simp only [hline] at h; cases h
          | arr xs => simp only [hline] at h; cases h
          | obj fs => simp only [hline] at h; cases h
      | null => simp only [hemo] at h; cases h
      | bool b => simp only [hemo] at h; cases h
      | str s2 => simp only [hemo] at h; cases h
      | arr xs => simp only [hemo] at h; cases h
      | obj fs => simp only [hemo] at h; cases h

theorem persistVoiceLinesAux_isErr_of_mem (panelMap : List (String × String))
    (episodeId : String) (row : JsonRecord)
    (herr : ∀ i, isErr (processVoiceRow panelMap episodeId i row) = true) :
    ∀ (rows : List JsonRecord), row ∈ rows →
      ∀ i0, isErr (persistVoiceLinesAux panelMap episodeId i0 rows) = true := by
  intro rows
  induction rows with
  | nil => intro hmem; cases hmem
  | cons r rest ih =>
    intro hmem i0
    unfold persistVoiceLinesAux
    rcases List.mem_cons.mp hmem with hr | hr
    · subst hr
      cases hp : processVoiceRow panelMap episodeId i0 row with
      | error e => simp only [isErr]
      | ok v => have hx := herr i0; rw [hp] at hx; simp [isErr] at hx
    · cases hp : processVoiceRow panelMap episodeId i0 r with
      | error e => simp only [isErr]
      | ok v =>
        have hrec := ih hr (i0 + 1)
        cases hq : persistVoiceLinesAux panelMap episodeId (i0 + 1) rest with
        | error e => simp only [isErr]
        | ok vs => rw [hq] at hrec; simp [isErr] at hrec

theorem persistVoiceLinesAux_ok (panelMap : List (String × String)) (episodeId : String) :
    ∀ (rows : List JsonRecord) (i0 : Nat) (vs : List VoiceLine),
      persistVoiceLinesAux panelMap episodeId i0 rows = Except.ok vs →
      vs.length = rows.length ∧ (∀ v ∈ vs, v.episodeId = episodeId) ∧
        (∀ r ∈ rows, rowFieldDefect r = false) := by
  intro rows
  induction rows with
  | nil =>
    intro i0 vs h
    unfold persistVoiceLinesAux at h
    cases h
    simp
  | cons r rest ih =>
    intro i0 vs h
    unfold persistVoiceLinesAux at h
    cases hp : processVoiceRow panelMap episodeId i0 r with
    | error e => rw [hp] at h; cases h
    | ok v =>
      rw [hp] at h
      cases hq : persistVoiceLinesAux panelMap episodeId (i0 + 1) rest with
      | error e => rw [hq] at h; cases h
      | ok ws =>
        rw [hq] at h
        cases h
        obtain ⟨hlen, heps, hdef⟩ := ih (i0 + 1) ws hq
        refine ⟨by simp [hlen], ?_, ?_⟩
        · intro u hu
          rcases List.mem_cons.mp hu with hu | hu
          · subst hu; exact processVoiceRow_ok_episodeId panelMap episodeId i0 r u hp
          · exact heps u hu
        · intro s hs
          rcases List.mem_cons.mp hs with hs | hs
          · subst hs
            by_contra hdd
            rw [Bool.not_eq_false] at hdd
            have hx := processVoiceRow_isErr_of_defect panelMap episodeId i0 s hdd
            rw [hp] at hx
            simp [isErr] at hx
          · exact hdef s hs

theorem filter_ne_of_all_eq (episodeId : String) (created : List VoiceLine)
    (hall : ∀ v ∈ created, v.episodeId = episodeId) :
    created.filter (fun v => v.episodeId ≠ episodeId) = [] := by
  rw [List.filter_eq_nil_iff]
  intro v hv
  simp [hall v hv]

theorem filter_ne_idem (episodeId : String) (t : List VoiceLine) :
    (t.filter (fun v => v.episodeId ≠ episodeId)).filter (fun v => v.episodeId ≠ episodeId)
      = t.filter (fun v => v.episodeId ≠ episodeId) := by
  induction t with
  | nil => rfl
  | cons v t ih =>
    by_cases hv : v.episodeId = episodeId
    · simp [List.filter, hv, ih]
    · simp [List.filter, hv, ih]

theorem filter_eq_of_filter_ne (episodeId : String) (t : List VoiceLine) :
    (t.filter (fun v => v.episodeId ≠ episodeId)).filter (fun v => v.episodeId = episodeId)
      = [] := by
  rw [List.filter_eq_nil_iff]
  intro v hv
  have := (List.mem_filter.mp hv).2
  simp at this
  simp [this]

theorem filter_eq_of_all_eq (episodeId : String) (created : List VoiceLine)
    (hall : ∀ v ∈ created, v.episodeId = episodeId) :
    created.filter (fun v => v.episodeId = episodeId) = created := by
  rw [List.filter_eq_self]
  intro v hv
  simp [hall v hv]

/-- Claim C1: in `handleScriptToStoryboardTask`, if any voice line has a
non-null `matchedPanel` whose composite key `(storyboardId, panelIndex)`
does not resolve against the lookup map built from the panels persisted
in this same run, the voice-line persistence transaction throws and
aborts entirely: the voice-line table is left exactly as it was, with no
rows committed for that run (the `deleteMany` and every `create` inside
`prisma.$transaction` are rolled back together). -/
theorem claim_C1 (panelMap : List (String × String)) (episodeId : String)
    (table : List VoiceLine) (rows : List JsonRecord) (row : JsonRecord)
    (hmem : row ∈ rows) (hbad : hasUnresolvedPanelRef panelMap row = true) :
    (∃ e, persistVoiceLines panelMap episodeId rows = Except.error e) ∧
      (applyVoiceLineTransaction table episodeId panelMap rows).1 = table ∧
      ∀ created, (applyVoiceLineTransaction table episodeId panelMap rows).2
        ≠ Except.ok created := by
  have herr : ∀ i, isErr (processVoiceRow panelMap episodeId i row) = true :=
    fun i => processVoiceRow_isErr_of_unresolved panelMap episodeId i row hbad
  have hfail := persistVoiceLinesAux_isErr_of_mem panelMap episodeId row herr rows hmem 0
  cases hp : persistVoiceLinesAux panelMap episodeId 0 rows with
  | ok vs => rw [hp] at hfail; simp [isErr] at hfail
  | error e =>
    have hpv : persistVoiceLines panelMap episodeId rows = Except.error e := hp
    refine ⟨⟨e, hpv⟩, ?_, ?_⟩
    · simp [applyVoiceLineTransaction, hpv]
    · intro created
      simp [applyVoiceLineTransaction, hpv]

/-- Claim C1 witness: a concrete voice line referencing panel `sb9:1`
against an empty panel map makes the whole transaction fail and leaves
the table untouched. -/
theorem claim_C1_witness :
    (∃ e, persistVoiceLines [] "ep"
        [[("matchedPanel",
            Json.obj [("storyboardId", Json.str "sb9"), ("panelIndex", Json.num 1)])]]
        = Except.error e) ∧
      (applyVoiceLineTransaction [] "ep" []
          [[("matchedPanel",
              Json.obj [("storyboardId", Json.str "sb9"), ("panelIndex", Json.num 1)])]]).1
        = [] ∧
      ∀ created, (applyVoiceLineTransaction [] "ep" []
          [[("matchedPanel",
              Json.obj [("storyboardId", Json.str "sb9"), ("panelIndex", Json.num 1)])]]).2
        ≠ Except.ok created :=
  claim_C1 [] "ep" []
    [[("matchedPanel",
        Json.obj [("storyboardId", Json.str "sb9"), ("panelIndex", Json.num 1)])]]
    [("matchedPanel",
        Json.obj [("storyboardId", Json.str "sb9"), ("panelIndex", Json.num 1)])]
    (List.mem_cons_self _ _) (by decide)

/-- Claim C4: voice-line persistence is an idempotent full replace —
inside the transaction all existing voice lines of the episode are
deleted and the full new set inserted, so running the persistence twice
for the same episode with the same orchestrator output leaves the table
with exactly one generation's worth of rows (not a union of both runs),
and the transaction runs under a bounded timeout of 15000 ms. -/
theorem claim_C4 (table : List VoiceLine) (episodeId : String)
    (panelMap : List (String × String)) (rows : List JsonRecord) :
    (applyVoiceLineTransaction
        (applyVoiceLineTransaction table episodeId panelMap rows).1 episodeId panelMap rows).1
      = (applyVoiceLineTransaction table episodeId panelMap rows).1 ∧
    (∀ created, persistVoiceLines panelMap episodeId rows = Except.ok created →
      ((applyVoiceLineTransaction table episodeId panelMap rows).1.filter
          (fun v => v.episodeId = episodeId)) = created) ∧
    voiceTransactionTimeoutMs = 15000 := by
  cases hp : persistVoiceLines panelMap episodeId rows with
  | error e =>
    refine ⟨?_, ?_, rfl⟩
    · simp [applyVoiceLineTransaction, hp]
    · intro created hok
      cases hok
  | ok created =>
    obtain ⟨-, heps, -⟩ := persistVoiceLinesAux_ok panelMap episodeId rows 0 created hp
    refine ⟨?_, ?_, rfl⟩
    · simp only [applyVoiceLineTransaction, hp]
      rw [List.filter_append, filter_ne_idem, filter_ne_of_all_eq episodeId created heps,
        List.append_nil]
    · intro created2 hok2
      cases hok2
      simp only [applyVoiceLineTransaction, hp]
      rw [List.filter_append, filter_eq_of_filter_ne, filter_eq_of_all_eq episodeId created heps,
        List.nil_append]

/-- Claim C4 witness: applying the transaction twice for a concrete
valid row equals applying it once, and the timeout constant is 15000. -/
theorem claim_C4_witness :
    (applyVoiceLineTransaction
        (applyVoiceLineTransaction [] "ep" []
          [[("matchedPanel", Json.null),
            ("emotionStrength", Json.num 1), ("lineIndex", Json.num 1),
            ("speaker", Json.str "narrator"), ("content", Json.str "hello")]]).1
        "ep" []
        [[("matchedPanel", Json.null),
          ("emotionStrength", Json.num 1), ("lineIndex", Json.num 1),
          ("speaker", Json.str "narrator"), ("content", Json.str "hello")]]).1
      = (applyVoiceLineTransaction [] "ep" []
          [[("matchedPanel", Json.null),
            ("emotionStrength", Json.num 1), ("lineIndex", Json.num 1),
            ("speaker", Json.str "narrator"), ("content", Json.str "hello")]]).1 ∧
    voiceTransactionTimeoutMs = 15000 :=
  ⟨(claim_C4 [] "ep" []
      [[("matchedPanel", Json.null),
        ("emotionStrength", Json.num 1), ("lineIndex", Json.num 1),
        ("speaker", Json.str "narrator"), ("content", Json.str "hello")]]).1,
   (claim_C4 [] "ep" []
      [[("matchedPanel", Json.null),
        ("emotionStrength", Json.num 1), ("lineIndex", Json.num 1),
        ("speaker", Json.str "narrator"), ("content", Json.str "hello")]]).2.2⟩

/-- Claim C7: every voice-line field is explicitly validated before
insert, and a malformed generated field aborts the transaction rather
than being coerced to a default: a row with a missing/non-numeric
`emotionStrength`, a missing/non-numeric/below-1 `lineIndex`, or a
missing/empty-after-trim `speaker` or `content` makes the whole
transaction throw and leaves the table untouched; conversely a
successful run implies every row passed all these validations (one
created row per input row, none substituted by a guessed default). -/
theorem claim_C7 (panelMap : List (String × String)) (episodeId : String)
    (table : List VoiceLine) (rows : List JsonRecord) :
    (∀ row ∈ rows, rowFieldDefect row = true →
       isErr (persistVoiceLines panelMap episodeId rows) = true ∧
       (applyVoiceLineTransaction table episodeId panelMap rows).1 = table) ∧
    (∀ created, persistVoiceLines panelMap episodeId rows = Except.ok created →
       created.length = rows.length ∧
       (∀ v ∈ created, v.episodeId = episodeId) ∧
       ∀ row ∈ rows, rowFieldDefect row = false) := by
  constructor
  · intro row hmem hdef
    have herr : ∀ i, isErr (processVoiceRow panelMap episodeId i row) = true :=
      fun i => processVoiceRow_isErr_of_defect panelMap episodeId i row hdef
    have hfail := persistVoiceLinesAux_isErr_of_mem panelMap episodeId row herr rows hmem 0
    have hfail2 : isErr (persistVoiceLines panelMap episodeId rows) = true := hfail
    refine ⟨hfail2, ?_⟩
    cases hp : persistVoiceLines panelMap episodeId rows with
    | ok vs => rw [hp] at hfail2; simp [isErr] at hfail2
    | error e => simp [applyVoiceLineTransaction, hp]
  · intro created hok
    exact persistVoiceLinesAux_ok panelMap episodeId rows 0 created hok

/-- Claim C7 witness: a concrete row with a non-numeric
`emotionStrength` aborts the transaction and leaves the table
untouched. -/
theorem claim_C7_witness :
    isErr (persistVoiceLines [] "ep"
        [[("emotionStrength", Json.str "strong"), ("lineIndex", Json.num 1),
          ("speaker", Json.str "narrator"), ("content", Json.str "hello")]]) = true ∧
      (applyVoiceLineTransaction [] "ep" []
          [[("emotionStrength", Json.str "strong"), ("lineIndex", Json.num 1),
            ("speaker", Json.str "narrator"), ("content", Json.str "hello")]]).1 = [] :=
  (claim_C7 [] "ep" []
      [[("emotionStrength", Json.str "strong"), ("lineIndex", Json.num 1),
        ("speaker", Json.str "narrator"), ("content", Json.str "hello")]]).1
    [("emotionStrength", Json.str "strong"), ("lineIndex", Json.num 1),
      ("speaker", Json.str "narrator"), ("content", Json.str "hello")]
    (List.mem_cons_self _ _) (by decide)

theorem runVoiceAttempts_eq (attempt : Nat → AttemptOutcome) :
    runVoiceAttempts attempt = (match attempt 1 with
      | AttemptOutcome.ok rows => Except.ok rows
      | AttemptOutcome.terminated => Except.error VoiceFailure.terminated
      | AttemptOutcome.failed _ =>
        match attempt 2 with
        | AttemptOutcome.ok rows => Except.ok rows
        | AttemptOutcome.terminated => Except.error VoiceFailure.terminated
        | AttemptOutcome.failed e2 => Except.error (VoiceFailure.failedWith e2)) := by
  unfold runVoiceAttempts
  unfold voiceLoop
  cases h1 : attempt 1 with
  | ok rows => rfl
  | terminated => rfl
  | failed e1 =>
    unfold voiceLoop
    cases h2 : attempt 2 with
    | ok rows => rfl
    | terminated => rfl
    | failed e2 => rfl

/-- Claim C3: the voice-analysis step is attempted at most 2 times (the
outcome depends only on attempts 1 and 2); a `TaskTerminatedError` is
re-thrown immediately and never retried; any other first-attempt error
is retried exactly once more, and if both attempts fail the last
non-cancellation error is thrown; the second attempt's `stepId` carries
the suffix `_r2` while its `stepIndex`/`stepTotal` are unchanged. -/
theorem claim_C3 :
    (∀ f g : Nat → AttemptOutcome, f 1 = g 1 → f 2 = g 2 →
      runVoiceAttempts f = runVoiceAttempts g) ∧
    (∀ f : Nat → AttemptOutcome, f 1 = AttemptOutcome.terminated →
      runVoiceAttempts f = Except.error VoiceFailure.terminated) ∧
    (∀ (f : Nat → AttemptOutcome) (e : String), f 1 = AttemptOutcome.failed e →
      runVoiceAttempts f = (match f 2 with
        | AttemptOutcome.ok rows => Except.ok rows
        | AttemptOutcome.terminated => Except.error VoiceFailure.terminated
        | AttemptOutcome.failed e2 => Except.error (VoiceFailure.failedWith e2))) ∧
    (∀ (f : Nat → AttemptOutcome) (rows : List JsonRecord), f 1 = AttemptOutcome.ok rows →
      runVoiceAttempts f = Except.ok rows) ∧
    (∀ n : Nat,
      (voiceAttemptMeta n 2).stepId = (voiceAttemptMeta n 1).stepId ++ "_r2" ∧
      (voiceAttemptMeta n 2).stepIndex = (voiceAttemptMeta n 1).stepIndex ∧
      (voiceAttemptMeta n 2).stepTotal = (voiceAttemptMeta n 1).stepTotal) := by
  refine ⟨?_, ?_, ?_, ?_, ?_⟩
  · intro f g h1 h2
    rw [runVoiceAttempts_eq f, runVoiceAttempts_eq g, h1, h2]
  · intro f h1
    rw [runVoiceAttempts_eq f, h1]
  · intro f e h1
    rw [runVoiceAttempts_eq f, h1]
  · intro f rows h1
    rw [runVoiceAttempts_eq f, h1]
  · intro n
    refine ⟨?_, rfl, rfl⟩
    rfl

/-- Claim C3 witness: a first attempt failing with an ordinary error is
retried, the second attempt's parsed rows are returned, and the
attempt-2 metadata for a 7-step orchestration carries stepId
`voice_analyze_r2` with index and total still 7. -/
theorem claim_C3_witness :
    runVoiceAttempts
        (fun a => if a = 1 then AttemptOutcome.failed "boom" else AttemptOutcome.ok [])
      = Except.ok [] ∧
    (voiceAttemptMeta 7 2).stepId = (voiceAttemptMeta 7 1).stepId ++ "_r2" ∧
    (voiceAttemptMeta 7 2).stepIndex = (voiceAttemptMeta 7 1).stepIndex := by
  refine ⟨?_, (claim_C3.2.2.2.2 7).1, (claim_C3.2.2.2.2 7).2.1⟩
  have h := claim_C3.2.2.1
    (fun a => if a = 1 then AttemptOutcome.failed "boom" else AttemptOutcome.ok []) "boom" rfl
  simpa using h

theorem intercalate_singleton (sep x : String) : String.intercalate sep [x] = x := rfl

/-- Claim C2: in `handleStoryToScriptTask`, if the orchestrator result
has `summary.screenplayFailedCount > 0`, the handler throws exactly
once, after the full orchestration completes, an error whose message
starts with `STORY_TO_SCRIPT_PARTIAL_FAILED` and carries the
failed/total counts and a preview of at most the first 3 failing items
formatted as clipId plus reason; with one failed item out of one total
the message contains the failing clip id; and no persistence occurs
(the phase performs no database write). -/
theorem claim_C2 (jobActive episodeStillExists : Bool) (episodeId : String)
    (r : StoryToScriptResult) (hfail : r.summary.screenplayFailedCount > 0) :
    storyToScriptFinishPhase jobActive episodeStillExists episodeId r
      = ([], Except.error (HandlerFailure.failure (partialFailedMessage r))) ∧
    (∃ rest, partialFailedMessage r
      = "STORY_TO_SCRIPT_PARTIAL_FAILED: " ++ toString r.summary.screenplayFailedCount
          ++ "/" ++ toString r.summary.clipCount ++ " screenplay steps failed. " ++ rest) ∧
    (partialFailedMessage r
      = "STORY_TO_SCRIPT_PARTIAL_FAILED: " ++ toString r.summary.screenplayFailedCount
          ++ "/" ++ toString r.summary.clipCount ++ " screenplay steps failed. "
          ++ String.intercalate " | "
              (((r.screenplayResults.filter (fun item => !item.success)).take 3).map
                (fun item => item.clipId ++ ":" ++ jsStringOrDefault item.error "unknown error"))) ∧
    ((r.screenplayResults.filter (fun item => !item.success)).take 3).length ≤ 3 ∧
    (∀ item, r.screenplayResults = [item] → item.success = false →
      ∃ pre post, partialFailedMessage r = pre ++ item.clipId ++ post) ∧
    (∀ ev ∈ (storyToScriptFinishPhase jobActive episodeStillExists episodeId r).1,
      ev.isDbWrite = false) := by
  have hphase : storyToScriptFinishPhase jobActive episodeStillExists episodeId r
      = ([], Except.error (HandlerFailure.failure (partialFailedMessage r))) := by
    unfold storyToScriptFinishPhase
    rw [if_pos hfail]
  refine ⟨hphase, ?_, rfl, ?_, ?_, ?_⟩
  · exact ⟨_, rfl⟩
  · rw [List.length_take]
    exact min_le_left _ _
  · intro item hitem hsucc
    refine ⟨"STORY_TO_SCRIPT_PARTIAL_FAILED: " ++ toString r.summary.screenplayFailedCount
      ++ "/" ++ toString r.summary.clipCount ++ " screenplay steps failed. ",
      ":" ++ jsStringOrDefault item.error "unknown error", ?_⟩
    unfold partialFailedMessage
    rw [hitem]
    simp [List.filter_cons, hsucc, intercalate_singleton, String.append_assoc]
  · intro ev hev
    rw [hphase] at hev
    cases hev

/-- A concrete orchestrator outcome with one failed screenplay item
out of one total. -/
def sampleFailedItem : ScreenplayResult :=
  { clipId := "clip_1", success := false, error := some "parse error" }

/-- The orchestrator result wrapping `sampleFailedItem`. -/
def sampleFailedResult : StoryToScriptResult :=
  { screenplayResults := [sampleFailedItem],
    summary :=
      { clipCount := 1, screenplaySuccessCount := 0,
        screenplayFailedCount := 1, totalStepCount := 4 } }

/-- Claim C2 witness: one failed screenplay item out of one total makes
the finish phase reject with the partial-failure message, which
contains the failing clip id. -/
theorem claim_C2_witness :
    storyToScriptFinishPhase true true "ep" sampleFailedResult
      = ([], Except.error (HandlerFailure.failure (partialFailedMessage sampleFailedResult))) ∧
    ∃ pre post, partialFailedMessage sampleFailedResult
      = pre ++ sampleFailedItem.clipId ++ post :=
  ⟨(claim_C2 true true "ep" sampleFailedResult (by decide)).1,
   (claim_C2 true true "ep" sampleFailedResult (by decide)).2.2.2.2.1
      sampleFailedItem rfl rfl⟩

/-- Claim C5: both task handlers resolve the analysis model by the
chain non-empty `payload.model` override, otherwise the `analysisModel`
of `getProjectModelConfig(projectId, userId)`; the handler throws
`analysisModel is not configured` iff both the override and the
resolver's `analysisModel` are empty, and never when the resolver
returns a (non-empty) model. -/
theorem claim_C5 (payloadModel : Option Json) (cfg : String → String → Option String)
    (projectId userId : String) :
    (resolveAnalysisModel payloadModel cfg projectId userId
        = Except.error "analysisModel is not configured"
      ↔ (inputModelOf payloadModel = ""
          ∧ (cfg projectId userId = none ∨ cfg projectId userId = some ""))) ∧
    (inputModelOf payloadModel ≠ "" →
      resolveAnalysisModel payloadModel cfg projectId userId
        = Except.ok (inputModelOf payloadModel)) ∧
    (∀ m, inputModelOf payloadModel = "" → cfg projectId userId = some m → m ≠ "" →
      resolveAnalysisModel payloadModel cfg projectId userId = Except.ok m) ∧
    (∀ m, cfg projectId userId = some m → m ≠ "" →
      resolveAnalysisModel payloadModel cfg projectId userId
        ≠ Except.error "analysisModel is not configured") := by
  refine ⟨?_, ?_, ?_, ?_⟩
  · by_cases hin : inputModelOf payloadModel = ""
    · cases hcfg : cfg projectId userId with
      | none => simp [resolveAnalysisModel, hin, hcfg]
      | some s =>
        by_cases hs : s = ""
        · subst hs; simp [resolveAnalysisModel, hin, hcfg]
        · simp [resolveAnalysisModel, hin, hcfg, hs]
    · simp [resolveAnalysisModel, hin]
  · intro hin
    simp [resolveAnalysisModel, hin]
  · intro m hin hcfg hm
    simp [resolveAnalysisModel, hin, hcfg, hm]
  · intro m hcfg hm
    by_cases hin : inputModelOf payloadModel = ""
    · simp [resolveAnalysisModel, hin, hcfg, hm]
    · simp [resolveAnalysisModel, hin]

/-- Claim C5 witness: with no payload override and a resolver returning
no model the error fires; with a resolver returning `gpt-x` the
handler uses it and the error cannot fire. -/
theorem claim_C5_witness :
    resolveAnalysisModel none (fun _ _ => none) "p" "u"
        = Except.error "analysisModel is not configured" ∧
    resolveAnalysisModel none (fun _ _ => some "gpt-x") "p" "u" = Except.ok "gpt-x" ∧
    resolveAnalysisModel none (fun _ _ => some "gpt-x") "p" "u"
        ≠ Except.error "analysisModel is not configured" :=
  ⟨(claim_C5 none (fun _ _ => none) "p" "u").1.mpr ⟨rfl, Or.inl rfl⟩,
   (claim_C5 none (fun _ _ => some "gpt-x") "p" "u").2.2.1 "gpt-x" rfl rfl (by decide),
   (claim_C5 none (fun _ _ => some "gpt-x") "p" "u").2.2.2 "gpt-x" rfl (by decide)⟩

/-- Claim C6: before writing orchestrator output each handler re-checks
that the target episode still exists; when it was deleted mid-run the
handler fails with a `NOT_FOUND`-prefixed error and persists nothing:
shown for `handleStoryToScriptTask` (the inline re-check) and for
`handleScriptToStoryboardTask` via the spec-modelled
`persistStoryboardsAndPanels`. -/
theorem claim_C6 (episodeId : String) (r : StoryToScriptResult)
    (storyboards : List PersistedStoryboard)
    (hok : r.summary.screenplayFailedCount = 0) :
    ((storyToScriptFinishPhase true false episodeId r).2
        = Except.error (HandlerFailure.failure (notFoundEpisodeMessage episodeId)) ∧
      (∃ rest, notFoundEpisodeMessage episodeId = "NOT_FOUND" ++ rest) ∧
      (∀ ev ∈ (storyToScriptFinishPhase true false episodeId r).1, ev.isDbWrite = false)) ∧
    (∃ msg, persistStoryboardsAndPanels false episodeId storyboards = Except.error msg ∧
      ∃ rest, msg = "NOT_FOUND" ++ rest) := by
  have hphase : storyToScriptFinishPhase true false episodeId r
      = ([TaskEvent.progressReport 80, TaskEvent.assertActive "story_to_script_persist",
          TaskEvent.dbRead "novelPromotionEpisode"],
         Except.error (HandlerFailure.failure (notFoundEpisodeMessage episodeId))) := by
    unfold storyToScriptFinishPhase
    rw [if_neg (by omega : ¬ r.summary.screenplayFailedCount > 0)]
    simp
  refine ⟨⟨?_, ?_, ?_⟩, ?_⟩
  · rw [hphase]
  · refine ⟨": Episode " ++ episodeId ++ " was deleted while the task was running", ?_⟩
    unfold notFoundEpisodeMessage
    simp [String.append_assoc]
    rfl
  · rw [hphase]
    intro ev hev
    simp only [List.mem_cons, List.not_mem_nil, or_false] at hev
    rcases hev with h | h | h <;> subst h <;> rfl
  · refine ⟨"NOT_FOUND: Episode " ++ episodeId ++ " does not exist", ?_,
      ": Episode " ++ episodeId ++ " does not exist", ?_⟩
    · unfold persistStoryboardsAndPanels
      rfl
    · simp [String.append_assoc]
      rfl

/-- Claim C6 witness: at a concrete episode id and an empty result both
handlers' persistence gates reject with a `NOT_FOUND`-prefixed message
and produce no database write. -/
theorem claim_C6_witness :
    ((storyToScriptFinishPhase true false "ep77"
        { screenplayResults := [],
          summary :=
            { clipCount := 0, screenplaySuccessCount := 0,
              screenplayFailedCount := 0, totalStepCount := 0 } }).2
      = Except.error (HandlerFailure.failure (notFoundEpisodeMessage "ep77"))) ∧
    (∃ msg, persistStoryboardsAndPanels false "ep77" [] = Except.error msg ∧
      ∃ rest, msg = "NOT_FOUND" ++ rest) :=
  ⟨(claim_C6 "ep77"
      { screenplayResults := [],
        summary :=
          { clipCount := 0, screenplaySuccessCount := 0,
            screenplayFailedCount := 0, totalStepCount := 0 } } [] rfl).1.1,
   (claim_C6 "ep77"
      { screenplayResults := [],
        summary :=
          { clipCount := 0, screenplaySuccessCount := 0,
            screenplayFailedCount := 0, totalStepCount := 0 } } [] rfl).2⟩

/-- Claim C8: in both handlers `assertTaskActive` is the first action of
every `runStep` invocation (before the progress report and the LLM
completion call) and is invoked again before the persistence phase, so
a cancelled or superseded job never proceeds past either checkpoint to
an LLM call or a database write. -/
theorem claim_C8 :
    (∀ (tag : String) (active : Bool) (meta : StepMeta), ∃ rest,
      runStepEvents tag active meta
        = TaskEvent.assertActive (tag ++ "_step:" ++ meta.stepId) :: rest ∧
      (active = false → rest = [])) ∧
    (∀ (tag : String) (meta : StepMeta),
      ∀ ev ∈ runStepEvents tag false meta, ev.isLlmCall = false ∧ ev.isDbWrite = false) ∧
    (∀ (a e : Bool) (ep : String) (r : StoryToScriptResult),
      r.summary.screenplayFailedCount = 0 → ∃ rest,
        (storyToScriptFinishPhase a e ep r).1
          = TaskEvent.progressReport 80
              :: TaskEvent.assertActive "story_to_script_persist" :: rest ∧
        (a = false → rest = [])) ∧
    (∀ (a e : Bool) (ep : String) (r : StoryToScriptResult), a = false →
      ∀ ev ∈ (storyToScriptFinishPhase a e ep r).1, ev.isDbWrite = false) ∧
    (∀ (a e a2 : Bool) (ve : List TaskEvent), ∃ rest,
      scriptToStoryboardPersistEvents a e ve a2
        = TaskEvent.progressReport 80
            :: TaskEvent.assertActive "script_to_storyboard_persist" :: rest ∧
      (a = false → rest = [])) ∧
    (∀ (e : Bool) (ve : List TaskEvent),
      (∀ ev ∈ ve, ev.isDbWrite = false) →
      ∀ ev ∈ scriptToStoryboardPersistEvents true e ve false,
        ev.isDbWrite = true → ev = TaskEvent.dbWrite "storyboards_and_panels") := by
  refine ⟨?_, ?_, ?_, ?_, ?_, ?_⟩
  · intro tag active meta
    cases active with
    | false => exact ⟨[], by simp [runStepEvents], fun _ => rfl⟩
    | true =>
      refine ⟨[TaskEvent.progressReport (stepProgress meta.stepIndex meta.stepTotal),
        TaskEvent.auditLog "prompt", TaskEvent.llmCall meta.stepId,
        TaskEvent.auditLog "output"], by simp [runStepEvents], ?_⟩
      intro h2
      cases h2
  · intro tag meta ev hev
    simp [runStepEvents] at hev
    subst hev
    exact ⟨rfl, rfl⟩
  · intro a e ep r hok
    unfold storyToScriptFinishPhase
    rw [if_neg (by omega : ¬ r.summary.screenplayFailedCount > 0)]
    cases a with
    | false => exact ⟨[], by simp, fun _ => rfl⟩
    | true =>
      cases e with
      | false =>
        refine ⟨[TaskEvent.dbRead "novelPromotionEpisode"], by simp, ?_⟩
        intro h2; cases h2
      | true =>
        refine ⟨[TaskEvent.dbRead "novelPromotionEpisode",
          TaskEvent.dbWrite "characters", TaskEvent.dbWrite "locations",
          TaskEvent.dbWrite "clips", TaskEvent.dbWrite "screenplay",
          TaskEvent.progressReport 96], by simp, ?_⟩
        intro h2; cases h2
  · intro a e ep r ha ev hev
    subst ha
    unfold storyToScriptFinishPhase at hev
    by_cases hf : r.summary.screenplayFailedCount > 0
    · rw [if_pos hf] at hev
      cases hev
    · rw [if_neg hf] at hev
      simp only [Bool.false_eq_true, if_true, if_pos rfl, List.mem_cons,
        List.not_mem_nil, or_false] at hev
      rcases hev with h | h <;> subst h <;> rfl
  · intro a e a2 ve
    cases a with
    | false => exact ⟨[], by simp [scriptToStoryboardPersistEvents], fun _ => rfl⟩
    | true =>
      refine ⟨(if e = false then []
        else [TaskEvent.dbWrite "storyboards_and_panels"] ++ ve ++
          [TaskEvent.assertActive "script_to_storyboard_voice_persist"] ++
            (if a2 = false then []
             else [TaskEvent.dbWrite "voice_lines", TaskEvent.progressReport 96])),
        by simp [scriptToStoryboardPersistEvents], ?_⟩
      intro h2; cases h2
  · intro e ve hve ev hev htrue
    cases e with
    | false =>
      simp [scriptToStoryboardPersistEvents] at hev
      rcases hev with h | h <;> subst h <;> cases htrue
    | true =>
      simp [scriptToStoryboardPersistEvents] at hev
      rcases hev with h | h | h | h | h
      · subst h; cases htrue
      · subst h; cases htrue
      · subst h; rfl
      · have hx := hve ev h
        rw [htrue] at hx
        cases hx
      · subst h; cases htrue

/-- Claim C8 witness: a cancelled job's step invocation stops at the
liveness gate with no LLM call, and a concrete storyboard persistence
trace with the voice-persist checkpoint inactive contains no voice-line
write. -/
theorem claim_C8_witness :
    runStepEvents "story_to_script" false
        { stepId := "clip_generate", stepTitle := "t", stepIndex := 1, stepTotal := 4 }
      = [TaskEvent.assertActive "story_to_script_step:clip_generate"] ∧
    (∀ ev ∈ scriptToStoryboardPersistEvents true true
        [TaskEvent.llmCall "voice_analyze"] false,
      ev.isDbWrite = true → ev = TaskEvent.dbWrite "storyboards_and_panels") := by
  constructor
  · obtain ⟨rest, heq, hnil⟩ := claim_C8.1 "story_to_script" false
      { stepId := "clip_generate", stepTitle := "t", stepIndex := 1, stepTotal := 4 }
    rw [hnil rfl] at heq
    exact heq
  · intro ev hev htrue
    exact claim_C8.2.2.2.2.2 true [TaskEvent.llmCall "voice_analyze"]
      (by intro ev2 hev2; simp at hev2; subst hev2; rfl) ev hev htrue

theorem stepProgress_eq_div (i t : Nat) :
    stepProgress i t = 15 + min 55 ((i * 55) / (max 1 t)) := by
  unfold stepProgress
  congr 2
  rw [show ((i : ℚ) / ((max 1 t : Nat) : ℚ) * 55)
      = ((i * 55 : Nat) : ℚ) / ((max 1 t : Nat) : ℚ) by push_cast; ring]
  rw [Nat.floor_div_nat, Nat.floor_natCast]

/-- Claim C9: the per-step progress both `runStep` closures compute is
`15 + min(55, floor((stepIndex / max(1, stepTotal)) * 55))`, equal to
the integer form `15 + min 55 (stepIndex * 55 / max 1 stepTotal)`; it
always lies in `[15, 70]`, is monotone in `stepIndex` for a fixed
`stepTotal`, is well-defined at `stepTotal = 0` thanks to the
`max(1, _)` guard, and the fixed stage reports 10, the step band,
80 and 96 are in non-decreasing order. -/
theorem claim_C9 (stepIndex stepTotal : Nat) (_hle : stepIndex ≤ stepTotal) :
    stepProgress stepIndex stepTotal
        = 15 + min 55 ((stepIndex * 55) / (max 1 stepTotal)) ∧
    15 ≤ stepProgress stepIndex stepTotal ∧
    stepProgress stepIndex stepTotal ≤ 70 ∧
    (∀ i j t : Nat, i ≤ j → stepProgress i t ≤ stepProgress j t) ∧
    stepProgress stepIndex 0 = stepProgress stepIndex 1 ∧
    prepareProgressPercent ≤ 15 ∧ 70 ≤ persistProgressPercent ∧
    persistProgressPercent ≤ persistDoneProgressPercent := by
  refine ⟨stepProgress_eq_div stepIndex stepTotal, ?_, ?_, ?_, ?_, ?_, ?_, ?_⟩
  · rw [stepProgress_eq_div]
    exact Nat.le_add_right 15 _
  · rw [stepProgress_eq_div]
    have h := min_le_left 55 ((stepIndex * 55) / (max 1 stepTotal))
    omega
  · intro i j t hij
    rw [stepProgress_eq_div, stepProgress_eq_div]
    have h1 : i * 55 / max 1 t ≤ j * 55 / max 1 t :=
      Nat.div_le_div_right (Nat.mul_le_mul_right 55 hij)
    have h2 := min_le_min (le_refl 55) h1
    omega
  · rw [stepProgress_eq_div, stepProgress_eq_div]
    norm_num
  · exact (by decide : prepareProgressPercent ≤ 15)
  · exact (by decide : 70 ≤ persistProgressPercent)
  · exact (by decide : persistProgressPercent ≤ persistDoneProgressPercent)

/-- Claim C9 witness: at step 3 of 5 the progress equals the integer
form and lies in the 15-70 band. -/
theorem claim_C9_witness :
    stepProgress 3 5 = 15 + min 55 (3 * 55 / max 1 5) ∧
    15 ≤ stepProgress 3 5 ∧ stepProgress 3 5 ≤ 70 :=
  ⟨(claim_C9 3 5 (by decide)).1, (claim_C9 3 5 (by decide)).2.1,
   (claim_C9 3 5 (by decide)).2.2.1⟩

theorem stringSlice_length (s : String) (n : Nat) :
    (stringSlice s n).length = min n s.length :=
  List.length_take n s.data

/-- Claim C10: the analyzed content is the trimmed payload content,
falling back to the episode's `novelText` when the payload content is
empty; an empty merge throws `content is required`; otherwise the
content passed to the orchestrator is truncated to at most the first
30000 characters, and any text beyond that limit is dropped. -/
theorem claim_C10 (payloadContent : Option Json) (novelText : Option String) :
    (resolveStoryContent payloadContent novelText = Except.error "content is required"
      ↔ jsTrim (mergedContentOf payloadContent novelText) = "") ∧
    (jsTrim (contentRawOf payloadContent) ≠ "" →
      mergedContentOf payloadContent novelText = jsTrim (contentRawOf payloadContent)) ∧
    (jsTrim (contentRawOf payloadContent) = "" →
      mergedContentOf payloadContent novelText = (match novelText with
        | some t => t
        | none => "")) ∧
    (∀ c, resolveStoryContent payloadContent novelText = Except.ok c →
      c.length ≤ 30000 ∧
      ((mergedContentOf payloadContent novelText).length ≤ 30000 →
        c = mergedContentOf payloadContent novelText) ∧
      ((mergedContentOf payloadContent novelText).length > 30000 →
        c = stringSlice (mergedContentOf payloadContent novelText) 30000)) := by
  refine ⟨?_, ?_, ?_, ?_⟩
  · by_cases hm : jsTrim (mergedContentOf payloadContent novelText) = ""
    · simp [resolveStoryContent, hm]
    · simp [resolveStoryContent, hm]
  · intro hne
    simp [mergedContentOf, hne]
  · intro heq
    simp [mergedContentOf, heq]
  · intro c hc
    by_cases hm : jsTrim (mergedContentOf payloadContent novelText) = ""
    · simp [resolveStoryContent, hm] at hc
    · rw [show resolveStoryContent payloadContent novelText
          = (if jsTrim (mergedContentOf payloadContent novelText) = ""
              then Except.error "content is required"
              else Except.ok
                (if (mergedContentOf payloadContent novelText).length > storyContentMaxLength
                  then stringSlice (mergedContentOf payloadContent novelText)
                    storyContentMaxLength
                  else mergedContentOf payloadContent novelText)) from rfl, if_neg hm] at hc
      by_cases hlen : (mergedContentOf payloadContent novelText).length > storyContentMaxLength
      · rw [if_pos hlen] at hc
        cases hc
        refine ⟨?_, ?_, fun _ => rfl⟩
        · rw [stringSlice_length]
          exact le_trans (min_le_left _ _) (by decide)
        · intro hle
          unfold storyContentMaxLength at hlen
          omega
      · rw [if_neg hlen] at hc
        cases hc
        refine ⟨?_, fun _ => rfl, ?_⟩
        · unfold storyContentMaxLength at hlen
          omega
        · intro hgt
          unfold storyContentMaxLength at hlen
          omega

/-- Claim C10 witness: an all-whitespace payload with no novel text is
rejected with `content is required`, and a concrete short payload
passes through untruncated. -/
theorem claim_C10_witness :
    (resolveStoryContent (some (Json.str "   ")) none = Except.error "content is required") ∧
    (∀ c, resolveStoryContent (some (Json.str " hello ")) none = Except.ok c →
      c.length ≤ 30000) := by
  constructor
  · exact (claim_C10 (some (Json.str "   ")) none).1.mpr (by decide)
  · intro c hc
    exact ((claim_C10 (some (Json.str " hello ")) none).2.2.2 c hc).1
